import Mathlib

/-!
Shallow embedding of `src/cpp_extensions/automation_core.cpp` (auto-snake).

Modelling conventions, applied uniformly:
* C++ `double` scores and thresholds are modelled as exact rationals `ℚ`
  (decimal literals such as 0.7 become 7/10).
* The external OpenCV correlation primitive (`cv::matchTemplate` followed by
  `cv::minMaxLoc`) is opaque to the core (spec §1, §6); it is modelled as an
  explicit oracle parameter `Oracle` returning either a maximum score and
  location, or an exception (`CorrOutcome.exn`), matching the catch blocks in
  the source.
* The per-pixel BGR→HSV conversion formula is likewise opaque and is a
  function parameter `bgr2hsv`; `cv::cvtColor(..., COLOR_BGR2HSV)` raises
  unless the input has exactly 3 channels, which is modelled concretely.
* `cv::inRange` (per-channel inclusive range test producing a 0/255 mask),
  saturating `cv::Mat` addition on 8-bit masks, and `cv::countNonZero` are
  specified primitives (spec §6) and are modelled concretely.
* Wall-clock timing fields (`processing_time_ms`) and log lines are side
  effects with no bearing on any claim and are omitted.
* Python-level values are modelled by `NpArr` (a NumPy array header plus
  pixel data) and `PyEntry` (a list item that either is an array or is not);
  `pyarray_to_mat` mirrors the conversion function of the same name,
  returning `Except` where the C++ throws. Memory-layout aspects
  (contiguity normalisation, the defensive `clone`) have no observable
  effect in the model.
* Instrumented variants (`*_instr`) additionally count invocations of the
  external correlation primitive, used to state "without invoking the
  primitive" properties; the plain functions are their first projections.
-/

namespace AutomationCore

/-- A pixel: up to three 8-bit channels (H,S,V resp. B,G,R). -/
abbrev Pix : Type := Nat × Nat × Nat

/-- Model of `cv::Point`. -/
structure Pt where
  x : Int
  y : Int
deriving Repr, DecidableEq

/-- Model of `cv::Mat`: pixel buffer with row-major `data`, plus dimensions. -/
structure Img where
  rows : Nat
  cols : Nat
  channels : Nat
  data : List Pix
deriving Repr, DecidableEq

/-- Test `cv::Mat::empty()`: no pixels. -/
def Img.isEmpty (m : Img) : Bool := m.rows == 0 || m.cols == 0

/-- Pixel at row `r`, column `c` (row-major). -/
def Img.pixel (m : Img) (r c : Nat) : Pix := m.data.getD (r * m.cols + c) (0, 0, 0)

/-- A NumPy array as seen through the C API: number of dimensions, the
dimensions, and the pixel data. -/
structure NpArr where
  ndim : Nat
  d0 : Nat
  d1 : Nat
  d2 : Nat
  data : List Pix
deriving Repr, DecidableEq

/-- Conversion `pyarray_to_mat` (automation_core.cpp lines 52-90): rejects arrays that
are not 2-D or 3-D and channel counts outside {1,3,4}; otherwise yields the
`cv::Mat` view of the buffer. The C++ `throw` statements become `.error`. -/
def pyarray_to_mat (a : NpArr) : Except String Img :=
  if a.ndim < 2 || a.ndim > 3 then
    .error "Array must be 2D or 3D"
  else
    let channels := if a.ndim == 3 then a.d2 else 1
    if channels == 1 || channels == 3 || channels == 4 then
      .ok { rows := a.d0, cols := a.d1, channels := channels, data := a.data }
    else
      .error "Unsupported number of channels"

/-- Outcome of the opaque correlation primitive
(`cv::matchTemplate` + `cv::minMaxLoc`): either the maximum score with its
location, or a raised exception. -/
inductive CorrOutcome where
  | ok (maxVal : ℚ) (maxLoc : Pt)
  | exn
deriving Repr, DecidableEq

/-- The opaque correlation primitive: arguments are image, template and
method code. -/
def Oracle : Type := Img → Img → Int → CorrOutcome

/-- Value of `cv::TM_CCOEFF_NORMED` (OpenCV enum). -/
def TM_CCOEFF_NORMED : Int := 5

/-- Record `MatchResult` (automation_core.cpp lines 32-39), without the wall-clock
`processing_time_ms` field. -/
structure MatchResult where
  max_val : ℚ
  max_loc : Pt
  confidence : ℚ
  found : Bool
  template_id : Int
deriving Repr, DecidableEq

/-- The fields `parallel_template_match` initialises before its `try` block. -/
def zeroMatch (template_id : Int) : MatchResult :=
  { max_val := 0, max_loc := ⟨0, 0⟩, confidence := 0, found := false,
    template_id := template_id }

/-- Function `parallel_template_match` (automation_core.cpp lines 93-138),
instrumented with the number of invocations of the correlation primitive.
Degenerate inputs (empty image/template, template exceeding the image in
either axis) return the zero result before the primitive is called; an
exception from the primitive is caught and leaves the zero result. -/
def parallel_template_match_instr (corr : Oracle) (image template_img : Img)
    (method : Int) (threshold : ℚ) (template_id : Int) : MatchResult × Nat :=
  if image.isEmpty || template_img.isEmpty then
    (zeroMatch template_id, 0)
  else if template_img.rows > image.rows || template_img.cols > image.cols then
    (zeroMatch template_id, 0)
  else
    match corr image template_img method with
    | .exn => (zeroMatch template_id, 1)
    | .ok v loc =>
      ({ max_val := v, max_loc := loc, confidence := v,
         found := decide (threshold ≤ v), template_id := template_id }, 1)

/-- Function `parallel_template_match`: the returned `MatchResult`. -/
def parallel_template_match (corr : Oracle) (image template_img : Img)
    (method : Int) (threshold : ℚ) (template_id : Int) : MatchResult :=
  (parallel_template_match_instr corr image template_img method threshold template_id).1

/-- Number of correlation-primitive invocations made by one
`parallel_template_match` call. -/
def parallel_template_match_calls (corr : Oracle) (image template_img : Img)
    (method : Int) (threshold : ℚ) (template_id : Int) : Nat :=
  (parallel_template_match_instr corr image template_img method threshold template_id).2

/-- Function `multi_template_match` (automation_core.cpp lines 141-172), instrumented
with the total number of correlation-primitive invocations. A size mismatch
between the vectors is logged and yields the empty result vector. One
`parallel_template_match` task is launched per (template, threshold) pair
with the pair's index as task id; the join (`future.get`) collects results
in submission order. -/
def multi_template_match_instr (corr : Oracle) (image : Img)
    (templates : List Img) (thresholds : List ℚ) (method : Int) :
    List MatchResult × Nat :=
  if templates.length ≠ thresholds.length then
    ([], 0)
  else
    let runs := (templates.zip thresholds).enum.map (fun p =>
      parallel_template_match_instr corr image p.2.1 method p.2.2 (Int.ofNat p.1))
    (runs.map Prod.fst, (runs.map Prod.snd).sum)

/-- Function `multi_template_match`: the returned result vector. -/
def multi_template_match (corr : Oracle) (image : Img)
    (templates : List Img) (thresholds : List ℚ) (method : Int) :
    List MatchResult :=
  (multi_template_match_instr corr image templates thresholds method).1

/-- An element of a Python list handed to the module: either a NumPy array
(passes `PyArray_Check`) or any other object (fails it). -/
inductive PyEntry where
  | arr (a : NpArr)
  | other
deriving Repr, DecidableEq

/-- The translation loop of `cpp_multi_template_match` (lines 359-368):
non-array entries are skipped silently; an array entry is converted with
`pyarray_to_mat`, whose exception propagates to the enclosing catch. -/
def translate_templates : List (PyEntry × ℚ) → Except String (List (Img × ℚ))
  | [] => .ok []
  | (PyEntry.other, _) :: rest => translate_templates rest
  | (PyEntry.arr a, th) :: rest =>
    match pyarray_to_mat a with
    | .error e => .error e
    | .ok m =>
      match translate_templates rest with
      | .error e => .error e
      | .ok tail => .ok ((m, th) :: tail)

/-- Wrapper `cpp_multi_template_match` (automation_core.cpp lines 329-422),
instrumented with the number of correlation-primitive invocations. Order of
checks follows the source: the image is converted first (its exception is
caught at line 387 and re-raised as a RuntimeError); the list-length check
raises a ValueError; translation skips non-array entries; an empty template
vector raises a ValueError; otherwise `multi_template_match` runs and its
results are marshalled back in order. -/
def cpp_multi_template_match_instr (corr : Oracle) (image_array : NpArr)
    (template_list : List PyEntry) (threshold_list : List ℚ) (method : Int) :
    Except String (List MatchResult) × Nat :=
  match pyarray_to_mat image_array with
  | .error e => (.error ("Error in multi-template matching: " ++ e), 0)
  | .ok image =>
    if template_list.length ≠ threshold_list.length then
      (.error "Template and threshold lists must have the same size", 0)
    else
      match translate_templates (template_list.zip threshold_list) with
      | .error e => (.error ("Error in multi-template matching: " ++ e), 0)
      | .ok pairs =>
        if pairs.isEmpty then
          (.error "No valid templates provided", 0)
        else
          let r := multi_template_match_instr corr image
            (pairs.map Prod.fst) (pairs.map Prod.snd) method
          (.ok r.1, r.2)

/-- Wrapper `cpp_multi_template_match`: the value returned to Python. -/
def cpp_multi_template_match (corr : Oracle) (image_array : NpArr)
    (template_list : List PyEntry) (threshold_list : List ℚ) (method : Int) :
    Except String (List MatchResult) :=
  (cpp_multi_template_match_instr corr image_array template_list threshold_list method).1

/-- Number of correlation-primitive invocations made by one
`cpp_multi_template_match` call. -/
def cpp_multi_template_match_calls (corr : Oracle) (image_array : NpArr)
    (template_list : List PyEntry) (threshold_list : List ℚ) (method : Int) : Nat :=
  (cpp_multi_template_match_instr corr image_array template_list threshold_list method).2

/-- Record `HealthResult` (automation_core.cpp lines 42-49), without the wall-clock
`processing_time_ms` field. -/
structure HealthResult where
  health_percentage : ℚ
  is_empty : Bool
  is_critical : Bool
  health_location : Pt
  health_bar_found : Bool
deriving Repr, DecidableEq

/-- Result of an opaque OpenCV primitive that may raise. -/
inductive CvRes (α : Type) where
  | ok (v : α)
  | exn
deriving Repr, DecidableEq

/-- The clipped region of interest computed at lines 215-221: start at the
match location with the template's dimensions, then clip to image bounds. -/
structure RoiRect where
  x : Int
  y : Int
  w : Int
  h : Int
deriving Repr, DecidableEq

/-- ROI clipping (automation_core.cpp lines 215-221). -/
def clipRoi (screenshot tmpl : Img) (loc : Pt) : RoiRect :=
  let x := max 0 loc.x
  let y := max 0 loc.y
  { x := x, y := y,
    w := min (tmpl.cols : Int) ((screenshot.cols : Int) - x),
    h := min (tmpl.rows : Int) ((screenshot.rows : Int) - y) }

/-- Extraction `screenshot(health_roi)` (line 224): the sub-matrix view of the clipped
region. Only evaluated on ROIs that the clipping has brought within bounds. -/
def roiExtract (m : Img) (r : RoiRect) : Img :=
  { rows := r.h.toNat, cols := r.w.toNat, channels := m.channels,
    data := ((List.range r.h.toNat).map (fun i =>
      (List.range r.w.toNat).map (fun j =>
        m.pixel (r.y.toNat + i) (r.x.toNat + j)))).flatten }

/-- Conversion `cv::cvtColor(..., COLOR_BGR2HSV)` (line 228): raises unless the source
has exactly 3 channels; otherwise applies the opaque per-pixel conversion. -/
def cvtColorBGR2HSV (bgr2hsv : Pix → Pix) (m : Img) : CvRes Img :=
  if m.channels = 3 then .ok { m with data := m.data.map bgr2hsv } else .exn

/-- Constant `lower_red1 = cv::Scalar(0, 120, 70)` (line 231). -/
def lower_red1 : Pix := (0, 120, 70)

/-- Constant `upper_red1 = cv::Scalar(10, 255, 255)` (line 232). -/
def upper_red1 : Pix := (10, 255, 255)

/-- Constant `lower_red2 = cv::Scalar(170, 120, 70)` (line 233). -/
def lower_red2 : Pix := (170, 120, 70)

/-- Constant `upper_red2 = cv::Scalar(180, 255, 255)` (line 234). -/
def upper_red2 : Pix := (180, 255, 255)

/-- Per-channel inclusive range test of `cv::inRange`. -/
def inRangePix (lo hi p : Pix) : Bool :=
  lo.1 ≤ p.1 && p.1 ≤ hi.1 &&
  (lo.2.1 ≤ p.2.1 && p.2.1 ≤ hi.2.1) &&
  (lo.2.2 ≤ p.2.2 && p.2.2 ≤ hi.2.2)

/-- Primitive `cv::inRange` (lines 237-238): a CV_8U mask holding 255 where the pixel
lies in the range, 0 elsewhere. -/
def inRangeMask (lo hi : Pix) (hsv : Img) : List Nat :=
  hsv.data.map (fun p => if inRangePix lo hi p then 255 else 0)

/-- Sum `mask1 + mask2` on CV_8U data (line 239): per-element saturating add. -/
def satAddMask (a b : List Nat) : List Nat :=
  List.zipWith (fun x y => min 255 (x + y)) a b

/-- The union (logical OR) of two 0/255 masks, written from the spec's words
("the final mask is the union (logical OR) of the two range masks") for
comparison with the source's `mask1 + mask2`. -/
def orMask (a b : List Nat) : List Nat :=
  List.zipWith (fun x y => if x ≠ 0 ∨ y ≠ 0 then 255 else 0) a b

/-- Primitive `cv::countNonZero` (line 241). -/
def countNonZero (mask : List Nat) : Nat :=
  (mask.filter (fun v => v != 0)).length

/-- The colour-analysis body applied to the extracted health region
(automation_core.cpp lines 227-248): HSV conversion, two red-range masks,
their saturating sum, and the red-pixel fraction over
`health_region.rows * health_region.cols`. An exception from the HSV
conversion propagates (it is caught by `detect_health_parallel`). -/
def regionFraction (bgr2hsv : Pix → Pix) (health_region : Img) : CvRes ℚ :=
  match cvtColorBGR2HSV bgr2hsv health_region with
  | .exn => .exn
  | .ok hsv =>
    let mask1 := inRangeMask lower_red1 upper_red1 hsv
    let mask2 := inRangeMask lower_red2 upper_red2 hsv
    let red_mask := satAddMask mask1 mask2
    let red_pixels := countNonZero red_mask
    let total_pixels := health_region.rows * health_region.cols
    .ok (if 0 < total_pixels then (red_pixels : ℚ) / (total_pixels : ℚ) else 0)

/-- Steps of lines 210-250: if the bar was found, clip the ROI; when the clipped
width and height are positive, run the colour analysis on the extracted
region, else leave the fraction at 0. `.exn` marks an exception escaping to
the catch block of `detect_health_parallel`. -/
def health_color_analysis (bgr2hsv : Pix → Pix) (screenshot hbar_tmpl : Img)
    (hbar : MatchResult) : CvRes ℚ :=
  if hbar.found then
    let roi := clipRoi screenshot hbar_tmpl hbar.max_loc
    if 0 < roi.w ∧ 0 < roi.h then
      regionFraction bgr2hsv (roiExtract screenshot roi)
    else .ok 0
  else .ok 0

/-- The fields `detect_health_parallel` initialises before its `try` block
(lines 179-185). -/
def zeroHealth : HealthResult :=
  { health_percentage := 0, is_empty := false, is_critical := false,
    health_location := ⟨0, 0⟩, health_bar_found := false }

/-- Function `detect_health_parallel` (automation_core.cpp lines 175-267). Empty
inputs return the zero result. Otherwise the two sub-matches run (bar
template at threshold 0.7, empty template at threshold 0.8, both
TM_CCOEFF_NORMED with task ids 0 and 1); `health_bar_found` and
`health_location` are set from the bar sub-match unconditionally. If the
colour analysis raises, the catch block leaves the remaining fields at
their current values; on normal completion `is_empty` and `is_critical`
are derived at lines 253-254. -/
def detect_health_parallel (corr : Oracle) (bgr2hsv : Pix → Pix)
    (screenshot health_bar_template empty_health_template : Img)
    (health_threshold : ℚ) : HealthResult :=
  if screenshot.isEmpty || health_bar_template.isEmpty ||
      empty_health_template.isEmpty then
    zeroHealth
  else
    let health_bar_result := parallel_template_match corr screenshot
      health_bar_template TM_CCOEFF_NORMED (7/10) 0
    let empty_health_result := parallel_template_match corr screenshot
      empty_health_template TM_CCOEFF_NORMED (8/10) 1
    let r1 := { zeroHealth with
      health_bar_found := health_bar_result.found,
      health_location := health_bar_result.max_loc }
    match health_color_analysis bgr2hsv screenshot health_bar_template
        health_bar_result with
    | .exn => r1
    | .ok pct =>
      { r1 with
        health_percentage := pct,
        is_empty := empty_health_result.found || decide (pct < 1/20),
        is_critical := decide (pct < health_threshold) }

/-- The per-image summary dictionary built by `cpp_batch_process_screenshots`
(lines 479-485). -/
structure Summary where
  health_found : Bool
  health_confidence : ℚ
  respawn_found : Bool
  respawn_confidence : ℚ
deriving Repr, DecidableEq

/-- What the per-item lambda of `cpp_batch_process_screenshots` returns
(lines 464-493): the summary dictionary on success, `Py_None` when the catch
block handles a `std::exception`, or a null pointer when `PyDict_New`
fails. -/
inductive ItemOut where
  | dict (s : Summary)
  | pyNone
  | null
deriving Repr, DecidableEq

/-- The dual-match summary a per-item task computes when nothing fails:
health template at threshold 0.7 (task id 0), respawn template at
threshold 0.8 (task id 1), both TM_CCOEFF_NORMED (lines 466-484). -/
def mkSummary (corr : Oracle) (screenshot health_tmpl respawn_tmpl : Img) :
    Summary :=
  let health_result := parallel_template_match corr screenshot health_tmpl
    TM_CCOEFF_NORMED (7/10) 0
  let respawn_result := parallel_template_match corr screenshot respawn_tmpl
    TM_CCOEFF_NORMED (8/10) 1
  { health_found := health_result.found,
    health_confidence := health_result.confidence,
    respawn_found := respawn_result.found,
    respawn_confidence := respawn_result.confidence }

/-- One per-image task (lines 464-493): `taskFails` models the task body
raising a `std::exception` (e.g. a launch failure), handled by the catch
that returns `Py_None`; `allocFails` models `PyDict_New` returning null. -/
def batch_item (corr : Oracle) (taskFails allocFails : Bool)
    (screenshot health_tmpl respawn_tmpl : Img) : ItemOut :=
  if taskFails then ItemOut.pyNone
  else if allocFails then ItemOut.null
  else ItemOut.dict (mkSummary corr screenshot health_tmpl respawn_tmpl)

/-- The collection loop (lines 502-513): each future's value is appended to
the output list unless it is a null pointer — `Py_None` passes the
`result != nullptr` test and is appended as a `none` entry. -/
def collectBatch : List ItemOut → List (Option Summary)
  | [] => []
  | ItemOut.dict s :: rest => some s :: collectBatch rest
  | ItemOut.pyNone :: rest => none :: collectBatch rest
  | ItemOut.null :: rest => collectBatch rest

/-- The launch loop of `cpp_batch_process_screenshots` (lines 455-499):
list items failing `PyArray_Check` are skipped; array items are converted
with `pyarray_to_mat`, whose exception propagates to the outer catch and
aborts the whole call. -/
def convertShots : List PyEntry → Except String (List Img)
  | [] => .ok []
  | PyEntry.other :: rest => convertShots rest
  | PyEntry.arr a :: rest =>
    match pyarray_to_mat a with
    | .error e => .error e
    | .ok m =>
      match convertShots rest with
      | .error e => .error e
      | .ok tail => .ok (m :: tail)

/-- One per-image task per converted screenshot, in list order, task `i`
subject to the failure modes `fail i` and `alloc i`; `i` counts from the
given start index. This mirrors the launch loop over the futures vector. -/
def launchItems (corr : Oracle) (fail alloc : Nat → Bool)
    (health_tmpl respawn_tmpl : Img) : Nat → List Img → List ItemOut
  | _, [] => []
  | i, s :: rest =>
    batch_item corr (fail i) (alloc i) s health_tmpl respawn_tmpl ::
      launchItems corr fail alloc health_tmpl respawn_tmpl (i + 1) rest

/-- Wrapper `cpp_batch_process_screenshots` (automation_core.cpp lines 425-530).
The two templates are converted first (an exception aborts the call with a
RuntimeError); then one per-image task runs per valid screenshot, indexed by
its position among the valid entries, and the collection loop assembles the
output list. `fail i` / `alloc i` model task `i`'s failure modes. The
`health_threshold` argument is captured by the per-item lambda but never
used by it. -/
def cpp_batch_process_screenshots (corr : Oracle) (fail alloc : Nat → Bool)
    (screenshot_list : List PyEntry) (health_template respawn_template : NpArr)
    (health_threshold : ℚ) : Except String (List (Option Summary)) :=
  match pyarray_to_mat health_template with
  | .error e => .error ("Error in batch processing: " ++ e)
  | .ok health_tmpl =>
    match pyarray_to_mat respawn_template with
    | .error e => .error ("Error in batch processing: " ++ e)
    | .ok respawn_tmpl =>
      match convertShots screenshot_list with
      | .error e => .error ("Error in batch processing: " ++ e)
      | .ok imgs =>
        let _ := health_threshold
        .ok (collectBatch
          (launchItems corr fail alloc health_tmpl respawn_tmpl 0 imgs))

/-- Boolean discriminator for `Except`. -/
def isOkE {α : Type} : Except String α → Bool
  | .ok _ => true
  | .error _ => false

/-- An entry is a structurally valid image when it is an array that
`pyarray_to_mat` accepts. -/
def validEntry : PyEntry → Bool
  | .arr a => isOkE (pyarray_to_mat a)
  | .other => false

/-! Concrete fixtures used by witnesses and counterexamples. -/

/-- A constant correlation oracle reporting maximum score 1 at the origin. -/
def corrOne : Oracle := fun _ _ _ => CorrOutcome.ok 1 ⟨0, 0⟩

/-- A constant correlation oracle reporting maximum score 1/2 at (3,4). -/
def corrHalf34 : Oracle := fun _ _ _ => CorrOutcome.ok (1/2) ⟨3, 4⟩

/-- A constant correlation oracle reporting maximum score 0 at the origin. -/
def corrZero : Oracle := fun _ _ _ => CorrOutcome.ok 0 ⟨0, 0⟩

/-- A constant correlation oracle reporting maximum score 1 at (1,1). -/
def corrOne11 : Oracle := fun _ _ _ => CorrOutcome.ok 1 ⟨1, 1⟩

/-- The empty image. -/
def emptyImg : Img := ⟨0, 0, 3, []⟩

/-- A black 1×1 3-channel image. -/
def t11 : Img := ⟨1, 1, 3, [(0, 0, 0)]⟩

/-- A black 5×5 3-channel image. -/
def s55 : Img := ⟨5, 5, 3, List.replicate 25 (0, 0, 0)⟩

/-- A pixel whose HSV value lies in the first red range. -/
def pRed : Pix := (5, 200, 100)

/-- A 1×1 3-channel image holding the red pixel. -/
def s11 : Img := ⟨1, 1, 3, [pRed]⟩

/-- A 2×2 3-channel image whose bottom-right pixel is the red pixel. -/
def s22 : Img := ⟨2, 2, 3, [(0, 0, 0), (0, 0, 0), (0, 0, 0), pRed]⟩

/-- A well-formed 1×1 3-channel NumPy array. -/
def arr11 : NpArr := ⟨3, 1, 1, 3, [(0, 0, 0)]⟩

/-! Helper lemmas. -/

/-- On a degenerate input (empty image or template, or template exceeding
the image in either axis) the single matcher returns the zero result and
never calls the correlation primitive. -/
theorem ptm_instr_degenerate (corr : Oracle) (image template_img : Img)
    (method : Int) (threshold : ℚ) (template_id : Int)
    (hdeg : image.isEmpty = true ∨ template_img.isEmpty = true ∨
            image.rows < template_img.rows ∨ image.cols < template_img.cols) :
    parallel_template_match_instr corr image template_img method threshold
      template_id = (zeroMatch template_id, 0) := by
  unfold parallel_template_match_instr
  split
  · rfl
  · split
    · rfl
    · rename_i h1 h2
      simp only [Bool.or_eq_true, not_or, Bool.not_eq_true, decide_eq_true_eq,
        gt_iff_lt, not_lt] at h1 h2
      rcases hdeg with h | h | h | h
      · rw [h1.1] at h; cases h
      · rw [h1.2] at h; cases h
      · omega
      · omega

/-! Claim C1. -/

/-- C1 (amended): for every strictly positive threshold, every
`MatchResult` produced by `parallel_template_match` — including on the
degenerate-input and caught-exception paths — has `found` exactly
equivalent to `confidence ≥ threshold`. (For thresholds ≤ 0 the
equivalence fails on the degenerate and exception paths, where
`found = false` and `confidence = 0`.) -/
theorem C1_found_iff_confidence_ge (corr : Oracle) (image template_img : Img)
    (method : Int) (threshold : ℚ) (template_id : Int)
    (hpos : 0 < threshold) :
    (parallel_template_match corr image template_img method threshold
        template_id).found = true ↔
      threshold ≤ (parallel_template_match corr image template_img method
        threshold template_id).confidence := by
  unfold parallel_template_match parallel_template_match_instr
  split
  · simpa [zeroMatch] using not_le.mpr hpos
  · split
    · simpa [zeroMatch] using not_le.mpr hpos
    · split
      · simpa [zeroMatch] using not_le.mpr hpos
      · simp

/-- Witness for C1: a concrete invocation with threshold 1. -/
theorem C1_found_iff_confidence_ge_witness :
    (0 : ℚ) < 1 ∧
    ((parallel_template_match corrOne t11 t11 5 1 0).found = true ↔
      (1 : ℚ) ≤ (parallel_template_match corrOne t11 t11 5 1 0).confidence) :=
  ⟨by norm_num, C1_found_iff_confidence_ge corrOne t11 t11 5 1 0 (by norm_num)⟩

/-- Counterexample to C1 as stated: at threshold 0, an empty image gives
`found = false` while `confidence = 0 ≥ 0` holds, so the equivalence
fails. -/
theorem C1_counterexample :
    ¬ ((parallel_template_match corrOne emptyImg t11 5 0 7).found = true ↔
       (0 : ℚ) ≤ (parallel_template_match corrOne emptyImg t11 5 0 7).confidence) := by
  decide

/-! Claim C3. -/

/-- C3: for every image and template where the image is empty, the template
is empty, or the template exceeds the image in either axis,
`parallel_template_match` returns `found = false`, `maxScore = 0`,
`confidence = 0`, `location = (0,0)`, and the correlation primitive is not
invoked. -/
theorem C3_degenerate_no_primitive (corr : Oracle) (image template_img : Img)
    (method : Int) (threshold : ℚ) (template_id : Int)
    (hdeg : image.isEmpty = true ∨ template_img.isEmpty = true ∨
            image.rows < template_img.rows ∨ image.cols < template_img.cols) :
    (parallel_template_match corr image template_img method threshold
      template_id).found = false ∧
    (parallel_template_match corr image template_img method threshold
      template_id).max_val = 0 ∧
    (parallel_template_match corr image template_img method threshold
      template_id).confidence = 0 ∧
    (parallel_template_match corr image template_img method threshold
      template_id).max_loc = ⟨0, 0⟩ ∧
    parallel_template_match_calls corr image template_img method threshold
      template_id = 0 := by
  have h := ptm_instr_degenerate corr image template_img method threshold
    template_id hdeg
  unfold parallel_template_match parallel_template_match_calls
  rw [h]
  exact ⟨rfl, rfl, rfl, rfl, rfl⟩

/-- Witness for C3: a 1×1 template against an empty image, and the
oversized-template case via a 5×5 screenshot. -/
theorem C3_degenerate_no_primitive_witness :
    (emptyImg.isEmpty = true ∨ t11.isEmpty = true ∨
      emptyImg.rows < t11.rows ∨ emptyImg.cols < t11.cols) ∧
    ((parallel_template_match corrOne emptyImg t11 5 (1/2) 3).found = false ∧
     (parallel_template_match corrOne emptyImg t11 5 (1/2) 3).max_val = 0 ∧
     (parallel_template_match corrOne emptyImg t11 5 (1/2) 3).confidence = 0 ∧
     (parallel_template_match corrOne emptyImg t11 5 (1/2) 3).max_loc = ⟨0, 0⟩ ∧
     parallel_template_match_calls corrOne emptyImg t11 5 (1/2) 3 = 0) :=
  ⟨Or.inl (by decide),
   C3_degenerate_no_primitive corrOne emptyImg t11 5 (1/2) 3 (Or.inl (by decide))⟩

/-- When every entry is structurally invalid, translation either raises (a
malformed array) or accepts nothing. -/
theorem translate_all_invalid (l : List (PyEntry × ℚ))
    (hinv : ∀ p ∈ l, validEntry p.1 = false) :
    (∃ e, translate_templates l = .error e) ∨ translate_templates l = .ok [] := by
  induction l with
  | nil => exact Or.inr rfl
  | cons p rest ih =>
    obtain ⟨e, th⟩ := p
    cases e with
    | other =>
      simp only [translate_templates]
      exact ih fun q hq => hinv q (List.mem_cons_of_mem _ hq)
    | arr a =>
      have hv := hinv (PyEntry.arr a, th) (List.mem_cons_self _ _)
      simp only [translate_templates]
      cases hmat : pyarray_to_mat a with
      | error e2 => exact Or.inl ⟨e2, rfl⟩
      | ok m => simp [validEntry, isOkE, hmat] at hv

/-- When every entry is a non-array item, translation accepts nothing and
does not raise. -/
theorem translate_all_other (l : List (PyEntry × ℚ))
    (h : ∀ p ∈ l, p.1 = PyEntry.other) :
    translate_templates l = .ok [] := by
  induction l with
  | nil => rfl
  | cons p rest ih =>
    obtain ⟨e, th⟩ := p
    have hp := h (e, th) (List.mem_cons_self _ _)
    cases e with
    | arr a => simp at hp
    | other =>
      simp only [translate_templates]
      exact ih fun q hq => h q (List.mem_cons_of_mem _ hq)

/-- Translation accepts exactly the structurally valid entries, in order. -/
theorem translate_length (l : List (PyEntry × ℚ)) (pairs : List (Img × ℚ))
    (h : translate_templates l = .ok pairs) :
    pairs.length = (l.filter (fun p => validEntry p.1)).length := by
  induction l generalizing pairs with
  | nil =>
    simp only [translate_templates] at h
    cases h
    rfl
  | cons p rest ih =>
    obtain ⟨e, th⟩ := p
    cases e with
    | other =>
      simp only [translate_templates] at h
      rw [List.filter_cons]
      simpa [validEntry] using ih pairs h
    | arr a =>
      simp only [translate_templates] at h
      cases hmat : pyarray_to_mat a with
      | error e2 => rw [hmat] at h; cases h
      | ok m =>
        rw [hmat] at h
        cases htr : translate_templates rest with
        | error e2 => rw [htr] at h; cases h
        | ok tail =>
          rw [htr] at h
          cases h
          rw [List.filter_cons]
          simpa [validEntry, isOkE, hmat] using ih tail htr

/-! Claim C5. -/

/-- C5: for every pair of template and threshold lists of unequal length,
`cpp_multi_template_match` reports an error and performs no matching (no
correlation-primitive invocation occurs); when the image argument converts,
the error is exactly the size-mismatch ValueError. -/
theorem C5_mismatch_error_no_matching (corr : Oracle) (image_array : NpArr)
    (template_list : List PyEntry) (threshold_list : List ℚ) (method : Int)
    (hlen : template_list.length ≠ threshold_list.length) :
    (∃ msg, cpp_multi_template_match corr image_array template_list
      threshold_list method = .error msg) ∧
    cpp_multi_template_match_calls corr image_array template_list
      threshold_list method = 0 ∧
    (∀ image, pyarray_to_mat image_array = .ok image →
      cpp_multi_template_match corr image_array template_list threshold_list
        method = .error "Template and threshold lists must have the same size") := by
  unfold cpp_multi_template_match cpp_multi_template_match_calls
    cpp_multi_template_match_instr
  split
  · rename_i e heq
    refine ⟨⟨_, rfl⟩, rfl, fun image h => ?_⟩
    rw [heq] at h
    cases h
  · rename_i image heq
    rw [if_pos hlen]
    exact ⟨⟨_, rfl⟩, rfl, fun _ _ => rfl⟩

/-- Witness for C5: one template against two thresholds. -/
theorem C5_mismatch_error_no_matching_witness :
    ([PyEntry.arr arr11].length ≠ [(1 : ℚ)/2, 1/3].length) ∧
    ((∃ msg, cpp_multi_template_match corrOne arr11 [PyEntry.arr arr11]
        [1/2, 1/3] 5 = .error msg) ∧
     cpp_multi_template_match_calls corrOne arr11 [PyEntry.arr arr11]
        [1/2, 1/3] 5 = 0 ∧
     (∀ image, pyarray_to_mat arr11 = .ok image →
       cpp_multi_template_match corrOne arr11 [PyEntry.arr arr11] [1/2, 1/3] 5 =
         .error "Template and threshold lists must have the same size")) :=
  ⟨by decide,
   C5_mismatch_error_no_matching corrOne arr11 [PyEntry.arr arr11]
     [1/2, 1/3] 5 (by decide)⟩

/-! Claim C10. -/

/-- C10: for every equal-length pair of template and threshold lists in
which no entry is a structurally valid image, `cpp_multi_template_match`
reports an error rather than returning an empty result list; when all
entries are non-array items and the image converts, the error is exactly
"No valid templates provided". -/
theorem C10_no_valid_templates_error (corr : Oracle) (image_array : NpArr)
    (template_list : List PyEntry) (threshold_list : List ℚ) (method : Int)
    (hlen : template_list.length = threshold_list.length)
    (hinv : ∀ e ∈ template_list, validEntry e = false) :
    (∃ msg, cpp_multi_template_match corr image_array template_list
      threshold_list method = .error msg) ∧
    ((∀ e ∈ template_list, e = PyEntry.other) →
      ∀ image, pyarray_to_mat image_array = .ok image →
        cpp_multi_template_match corr image_array template_list threshold_list
          method = .error "No valid templates provided") := by
  constructor
  · unfold cpp_multi_template_match cpp_multi_template_match_instr
    split
    · exact ⟨_, rfl⟩
    · rename_i image heq
      rw [if_neg (by simp [hlen])]
      have hz : ∀ p ∈ template_list.zip threshold_list, validEntry p.1 = false := by
        intro p hp
        obtain ⟨e, th⟩ := p
        exact hinv e (List.of_mem_zip hp).1
      rcases translate_all_invalid _ hz with ⟨e, he⟩ | he
      · rw [he]
        exact ⟨_, rfl⟩
      · rw [he]
        exact ⟨_, rfl⟩
  · intro hoth image himg
    unfold cpp_multi_template_match cpp_multi_template_match_instr
    simp only [himg]
    rw [if_neg (by simp [hlen])]
    rw [translate_all_other _ (fun p hp => by
      obtain ⟨e, th⟩ := p
      exact hoth e (List.of_mem_zip hp).1)]
    rfl

/-- Witness for C10: a single non-array entry with a valid image. -/
theorem C10_no_valid_templates_error_witness :
    (∃ msg, cpp_multi_template_match corrOne arr11 [PyEntry.other]
      [(1 : ℚ)/2] 5 = .error msg) ∧
    ((∀ e ∈ [PyEntry.other], e = PyEntry.other) →
      ∀ image, pyarray_to_mat arr11 = .ok image →
        cpp_multi_template_match corrOne arr11 [PyEntry.other] [(1 : ℚ)/2] 5 =
          .error "No valid templates provided") :=
  C10_no_valid_templates_error corrOne arr11 [PyEntry.other] [(1 : ℚ)/2] 5
    (by decide) (by decide)

/-- Running `multi_template_match` on the translated pairs yields one
single-matcher result per pair, indexed in order. -/
theorem multi_instr_results (corr : Oracle) (image : Img)
    (pairs : List (Img × ℚ)) (method : Int) :
    (multi_template_match_instr corr image (pairs.map Prod.fst)
      (pairs.map Prod.snd) method).1 =
    pairs.enum.map (fun p =>
      parallel_template_match corr image p.2.1 method p.2.2 (Int.ofNat p.1)) := by
  unfold multi_template_match_instr
  rw [if_neg (by simp)]
  simp only [List.zip_map', Prod.mk.eta, List.map_id', List.map_map]
  rfl

/-! Claim C6. -/

/-- C6 (amended): for every equal-length pair of template and threshold
lists with a valid image, where every array entry converts and at least one
valid pair exists, the output is one `MatchResult` per accepted
(template, threshold) pair, in the relative order of the accepted entries,
and the number of accepted pairs is the number of structurally valid
entries. (When no entry is valid the call reports an error instead of
returning an empty list; a malformed array entry likewise aborts with an
error.) -/
theorem C6_one_result_per_valid_pair (corr : Oracle) (image_array : NpArr)
    (image : Img) (template_list : List PyEntry) (threshold_list : List ℚ)
    (method : Int) (pairs : List (Img × ℚ))
    (himg : pyarray_to_mat image_array = .ok image)
    (hlen : template_list.length = threshold_list.length)
    (htr : translate_templates (template_list.zip threshold_list) = .ok pairs)
    (hne : pairs ≠ []) :
    cpp_multi_template_match corr image_array template_list threshold_list
        method =
      .ok (pairs.enum.map (fun p =>
        parallel_template_match corr image p.2.1 method p.2.2 (Int.ofNat p.1))) ∧
    pairs.length =
      ((template_list.zip threshold_list).filter
        (fun p => validEntry p.1)).length := by
  refine ⟨?_, translate_length _ _ htr⟩
  unfold cpp_multi_template_match cpp_multi_template_match_instr
  simp only [himg]
  rw [if_neg (by simp [hlen])]
  simp only [htr]
  rw [if_neg (by simp [List.isEmpty_iff, hne])]
  rw [multi_instr_results]

/-- Witness for C6: one valid 1×1 template entry at threshold 1/2. -/
theorem C6_one_result_per_valid_pair_witness :
    cpp_multi_template_match corrOne arr11 [PyEntry.arr arr11] [(1 : ℚ)/2] 5 =
      .ok ([(t11, (1 : ℚ)/2)].enum.map (fun p =>
        parallel_template_match corrOne t11 p.2.1 5 p.2.2 (Int.ofNat p.1))) ∧
    [(t11, (1 : ℚ)/2)].length =
      (([PyEntry.arr arr11].zip [(1 : ℚ)/2]).filter
        (fun p => validEntry p.1)).length :=
  C6_one_result_per_valid_pair corrOne arr11 t11 [PyEntry.arr arr11]
    [(1 : ℚ)/2] 5 [(t11, (1 : ℚ)/2)] rfl rfl rfl (by simp)

/-- Counterexample to C6 as stated: with equal-length lists whose entries
are all invalid, the call reports an error instead of returning the empty
output list the claim requires. -/
theorem C6_counterexample :
    cpp_multi_template_match corrOne arr11 [PyEntry.other, PyEntry.other]
      [(1 : ℚ)/2, 1/3] 5 = .error "No valid templates provided" ∧
    isOkE (cpp_multi_template_match corrOne arr11 [PyEntry.other, PyEntry.other]
      [(1 : ℚ)/2, 1/3] 5) = false :=
  ⟨rfl, rfl⟩

/-! Claim C7. -/

/-- C7 (amended): on non-empty inputs, `barLocation` always equals the
location reported by the bar-template sub-match and `barFound` its found
flag — also when `barFound` is false, in which case the location is the
origin only if the sub-match itself took a degenerate or exception path. -/
theorem C7_location_always_submatch (corr : Oracle) (bgr2hsv : Pix → Pix)
    (screenshot health_bar_template empty_health_template : Img) (th : ℚ)
    (h1 : screenshot.isEmpty = false) (h2 : health_bar_template.isEmpty = false)
    (h3 : empty_health_template.isEmpty = false) :
    (detect_health_parallel corr bgr2hsv screenshot health_bar_template
      empty_health_template th).health_location =
      (parallel_template_match corr screenshot health_bar_template
        TM_CCOEFF_NORMED (7/10) 0).max_loc ∧
    (detect_health_parallel corr bgr2hsv screenshot health_bar_template
      empty_health_template th).health_bar_found =
      (parallel_template_match corr screenshot health_bar_template
        TM_CCOEFF_NORMED (7/10) 0).found := by
  simp only [detect_health_parallel, h1, h2, h3, Bool.or_self, Bool.or_false,
    Bool.false_or, Bool.false_eq_true, if_false]
  cases h : health_color_analysis bgr2hsv screenshot health_bar_template
    (parallel_template_match corr screenshot health_bar_template
      TM_CCOEFF_NORMED (7/10) 0) <;> simp

/-- Witness for C7: a 5×5 screenshot where the sub-match reports (3,4). -/
theorem C7_location_always_submatch_witness :
    s55.isEmpty = false ∧
    ((detect_health_parallel corrHalf34 id s55 t11 t11 (3/10)).health_location =
      (parallel_template_match corrHalf34 s55 t11 TM_CCOEFF_NORMED
        (7/10) 0).max_loc ∧
     (detect_health_parallel corrHalf34 id s55 t11 t11 (3/10)).health_bar_found =
      (parallel_template_match corrHalf34 s55 t11 TM_CCOEFF_NORMED
        (7/10) 0).found) :=
  ⟨rfl, C7_location_always_submatch corrHalf34 id s55 t11 t11 (3/10)
    rfl rfl rfl⟩

/-- Counterexample to C7 as stated: the sub-match scores 1/2 at (3,4), below
the 0.7 acceptance threshold, so `barFound` is false — yet `barLocation` is
(3,4), not the origin. -/
theorem C7_counterexample :
    (detect_health_parallel corrHalf34 id s55 t11 t11 (3/10)).health_bar_found
      = false ∧
    (detect_health_parallel corrHalf34 id s55 t11 t11 (3/10)).health_location
      = ⟨3, 4⟩ ∧
    Pt.mk 3 4 ≠ Pt.mk 0 0 := by
  norm_num [detect_health_parallel, parallel_template_match,
    parallel_template_match_instr, health_color_analysis, corrHalf34, s55, t11,
    Img.isEmpty, zeroHealth, zeroMatch, TM_CCOEFF_NORMED]

/-! Claim C2. -/

/-- C2 (amended): on the normal completion path — non-empty inputs and a
colour analysis that does not raise — `isCritical ⇔ healthFraction <
healthThreshold` and `isEmpty ⇔ (emptyTemplateMatched ∨ healthFraction <
0.05)`. (On the empty-input early-return path and the caught-exception
path both flags are false regardless of the fraction and threshold, so the
equivalences fail there whenever their right-hand sides hold.) -/
theorem C2_invariants_on_normal_path (corr : Oracle) (bgr2hsv : Pix → Pix)
    (screenshot health_bar_template empty_health_template : Img) (th pct : ℚ)
    (h1 : screenshot.isEmpty = false) (h2 : health_bar_template.isEmpty = false)
    (h3 : empty_health_template.isEmpty = false)
    (hok : health_color_analysis bgr2hsv screenshot health_bar_template
      (parallel_template_match corr screenshot health_bar_template
        TM_CCOEFF_NORMED (7/10) 0) = CvRes.ok pct) :
    (detect_health_parallel corr bgr2hsv screenshot health_bar_template
      empty_health_template th).health_percentage = pct ∧
    ((detect_health_parallel corr bgr2hsv screenshot health_bar_template
      empty_health_template th).is_critical = true ↔ pct < th) ∧
    ((detect_health_parallel corr bgr2hsv screenshot health_bar_template
      empty_health_template th).is_empty = true ↔
      ((parallel_template_match corr screenshot empty_health_template
        TM_CCOEFF_NORMED (8/10) 1).found = true ∨ pct < 1/20)) := by
  simp only [detect_health_parallel, h1, h2, h3, Bool.or_self, Bool.or_false,
    Bool.false_or, Bool.false_eq_true, if_false, hok]
  simp

/-- Witness for C2: a 1×1 screenshot whose sub-matches score 0, giving
fraction 0 on the normal path. -/
theorem C2_invariants_on_normal_path_witness :
    (detect_health_parallel corrZero id t11 t11 t11 (3/10)).health_percentage
      = 0 ∧
    ((detect_health_parallel corrZero id t11 t11 t11 (3/10)).is_critical = true
      ↔ (0 : ℚ) < 3/10) ∧
    ((detect_health_parallel corrZero id t11 t11 t11 (3/10)).is_empty = true ↔
      ((parallel_template_match corrZero t11 t11 TM_CCOEFF_NORMED
        (8/10) 1).found = true ∨ (0 : ℚ) < 1/20)) :=
  C2_invariants_on_normal_path corrZero id t11 t11 t11 (3/10) 0
    rfl rfl rfl (by
      norm_num [health_color_analysis, parallel_template_match,
        parallel_template_match_instr, corrZero, t11, Img.isEmpty, zeroMatch,
        TM_CCOEFF_NORMED])

/-- Counterexample to C2 as stated: on the empty-input early-return path
the fraction is 0, strictly below both 0.05 and the threshold 0.3, yet
`isEmpty` and `isCritical` are both false — violating both equivalences. -/
theorem C2_counterexample :
    (detect_health_parallel corrOne id emptyImg t11 t11 (3/10)).is_empty
      = false ∧
    (detect_health_parallel corrOne id emptyImg t11 t11 (3/10)).health_percentage
      < 1/20 ∧
    (detect_health_parallel corrOne id emptyImg t11 t11 (3/10)).is_critical
      = false ∧
    (detect_health_parallel corrOne id emptyImg t11 t11 (3/10)).health_percentage
      < 3/10 := by
  norm_num [detect_health_parallel, emptyImg, Img.isEmpty, zeroHealth]

/-- A found match at the origin with score 1. -/
def mrFound : MatchResult := ⟨1, ⟨0, 0⟩, 1, true, 0⟩

/-- On 0/255 masks built over the same pixel list, per-element saturating
addition coincides with the logical OR of the masks. -/
theorem satAdd_map_eq_or (f g : Pix → Bool) (l : List Pix) :
    List.zipWith (fun x y => min 255 (x + y))
      (l.map (fun p => if f p then 255 else 0))
      (l.map (fun p => if g p then 255 else 0)) =
    List.zipWith (fun x y => if x ≠ 0 ∨ y ≠ 0 then 255 else 0)
      (l.map (fun p => if f p then 255 else 0))
      (l.map (fun p => if g p then 255 else 0)) := by
  induction l with
  | nil => rfl
  | cons p rest ih =>
    simp only [List.map_cons, List.zipWith_cons_cons]
    rw [ih]
    congr 1
    by_cases hf : f p <;> by_cases hg : g p <;> simp [hf, hg]

/-- The saturating sum of the two red-range masks equals their union. -/
theorem satAddMask_inRange_eq_orMask (lo1 hi1 lo2 hi2 : Pix) (hsv : Img) :
    satAddMask (inRangeMask lo1 hi1 hsv) (inRangeMask lo2 hi2 hsv) =
      orMask (inRangeMask lo1 hi1 hsv) (inRangeMask lo2 hi2 hsv) := by
  unfold satAddMask orMask inRangeMask
  exact satAdd_map_eq_or _ _ hsv.data

/-- When the bar is found and the clipped ROI is non-degenerate, the colour
analysis is exactly the region-fraction computation on the extracted ROI. -/
theorem hca_eq_regionFraction (bgr2hsv : Pix → Pix) (screenshot hbar_tmpl : Img)
    (hbar : MatchResult) (hfound : hbar.found = true)
    (hw : 0 < (clipRoi screenshot hbar_tmpl hbar.max_loc).w)
    (hh : 0 < (clipRoi screenshot hbar_tmpl hbar.max_loc).h) :
    health_color_analysis bgr2hsv screenshot hbar_tmpl hbar =
      regionFraction bgr2hsv
        (roiExtract screenshot (clipRoi screenshot hbar_tmpl hbar.max_loc)) := by
  simp only [health_color_analysis, hfound, if_true]
  rw [if_pos ⟨hw, hh⟩]

/-! Claim C8. -/

/-- C8: in the colour-analysis step, for every non-empty clipped region the
red mask used for counting equals the logical OR (union) of the two
per-channel inclusive range masks (hue [0,10] and hue [170,180], saturation
[120,255], value [70,255]), and the fraction equals the count of set mask
pixels over the total pixels of the region. -/
theorem C8_red_mask_is_union (bgr2hsv : Pix → Pix) (screenshot hbar_tmpl : Img)
    (hbar : MatchResult) (hsv : Img)
    (hfound : hbar.found = true)
    (hw : 0 < (clipRoi screenshot hbar_tmpl hbar.max_loc).w)
    (hh : 0 < (clipRoi screenshot hbar_tmpl hbar.max_loc).h)
    (hcvt : cvtColorBGR2HSV bgr2hsv
      (roiExtract screenshot (clipRoi screenshot hbar_tmpl hbar.max_loc)) =
      CvRes.ok hsv) :
    satAddMask (inRangeMask lower_red1 upper_red1 hsv)
        (inRangeMask lower_red2 upper_red2 hsv) =
      orMask (inRangeMask lower_red1 upper_red1 hsv)
        (inRangeMask lower_red2 upper_red2 hsv) ∧
    health_color_analysis bgr2hsv screenshot hbar_tmpl hbar =
      CvRes.ok ((countNonZero (satAddMask
          (inRangeMask lower_red1 upper_red1 hsv)
          (inRangeMask lower_red2 upper_red2 hsv)) : ℚ) /
        (((roiExtract screenshot
            (clipRoi screenshot hbar_tmpl hbar.max_loc)).rows *
          (roiExtract screenshot
            (clipRoi screenshot hbar_tmpl hbar.max_loc)).cols : ℕ) : ℚ)) := by
  refine ⟨satAddMask_inRange_eq_orMask _ _ _ _ _, ?_⟩
  rw [hca_eq_regionFraction bgr2hsv screenshot hbar_tmpl hbar hfound hw hh]
  have hpos : 0 < (roiExtract screenshot
      (clipRoi screenshot hbar_tmpl hbar.max_loc)).rows *
      (roiExtract screenshot
        (clipRoi screenshot hbar_tmpl hbar.max_loc)).cols := by
    refine Nat.mul_pos ?_ ?_
    · show 0 < (clipRoi screenshot hbar_tmpl hbar.max_loc).h.toNat
      omega
    · show 0 < (clipRoi screenshot hbar_tmpl hbar.max_loc).w.toNat
      omega
  simp only [regionFraction, hcvt]
  rw [if_pos hpos]

/-- Witness for C8: a 1×1 region holding one red pixel; the conversion is
the identity and the explicit found-match record locates it at the origin. -/
theorem C8_red_mask_is_union_witness :
    (satAddMask (inRangeMask lower_red1 upper_red1 s11)
        (inRangeMask lower_red2 upper_red2 s11) =
      orMask (inRangeMask lower_red1 upper_red1 s11)
        (inRangeMask lower_red2 upper_red2 s11)) ∧
    health_color_analysis id s11 t11 mrFound =
      CvRes.ok ((countNonZero (satAddMask
          (inRangeMask lower_red1 upper_red1 s11)
          (inRangeMask lower_red2 upper_red2 s11)) : ℚ) /
        (((roiExtract s11 (clipRoi s11 t11 mrFound.max_loc)).rows *
          (roiExtract s11 (clipRoi s11 t11 mrFound.max_loc)).cols : ℕ) : ℚ)) :=
  C8_red_mask_is_union id s11 t11 mrFound s11 rfl (by decide) (by decide)
    (by decide)

/-! Claim C9. -/

/-- On non-empty inputs, the analyzer's fraction is the value of the colour
analysis, or 0 when the analysis raised. -/
theorem detect_health_percentage_char (corr : Oracle) (bgr2hsv : Pix → Pix)
    (screenshot hbar_t empty_t : Img) (th : ℚ)
    (h1 : screenshot.isEmpty = false) (h2 : hbar_t.isEmpty = false)
    (h3 : empty_t.isEmpty = false) :
    (detect_health_parallel corr bgr2hsv screenshot hbar_t empty_t
        th).health_percentage =
      match health_color_analysis bgr2hsv screenshot hbar_t
        (parallel_template_match corr screenshot hbar_t TM_CCOEFF_NORMED
          (7/10) 0) with
      | .ok pct => pct
      | .exn => 0 := by
  simp only [detect_health_parallel, h1, h2, h3, Bool.or_self, Bool.or_false,
    Bool.false_or, Bool.false_eq_true, if_false]
  cases h : health_color_analysis bgr2hsv screenshot hbar_t
    (parallel_template_match corr screenshot hbar_t TM_CCOEFF_NORMED
      (7/10) 0) <;> simp [zeroHealth]

/-- C9: the health fraction is a deterministic pure function of the clipped
region's pixel data — two analyzer runs (any screenshots, oracles and
thresholds) whose extracted clipped regions carry identical pixel data
yield identical fractions. -/
theorem C9_fraction_function_of_region (corr1 corr2 : Oracle)
    (bgr2hsv : Pix → Pix) (s1 s2 h1t h2t e1t e2t : Img) (th1 th2 : ℚ)
    (hne1 : s1.isEmpty = false) (hne2 : h1t.isEmpty = false)
    (hne3 : e1t.isEmpty = false) (hne4 : s2.isEmpty = false)
    (hne5 : h2t.isEmpty = false) (hne6 : e2t.isEmpty = false)
    (hf1 : (parallel_template_match corr1 s1 h1t TM_CCOEFF_NORMED
      (7/10) 0).found = true)
    (hf2 : (parallel_template_match corr2 s2 h2t TM_CCOEFF_NORMED
      (7/10) 0).found = true)
    (hw1 : 0 < (clipRoi s1 h1t (parallel_template_match corr1 s1 h1t
      TM_CCOEFF_NORMED (7/10) 0).max_loc).w)
    (hh1 : 0 < (clipRoi s1 h1t (parallel_template_match corr1 s1 h1t
      TM_CCOEFF_NORMED (7/10) 0).max_loc).h)
    (hw2 : 0 < (clipRoi s2 h2t (parallel_template_match corr2 s2 h2t
      TM_CCOEFF_NORMED (7/10) 0).max_loc).w)
    (hh2 : 0 < (clipRoi s2 h2t (parallel_template_match corr2 s2 h2t
      TM_CCOEFF_NORMED (7/10) 0).max_loc).h)
    (hreg : roiExtract s1 (clipRoi s1 h1t (parallel_template_match corr1 s1
        h1t TM_CCOEFF_NORMED (7/10) 0).max_loc) =
      roiExtract s2 (clipRoi s2 h2t (parallel_template_match corr2 s2 h2t
        TM_CCOEFF_NORMED (7/10) 0).max_loc)) :
    (detect_health_parallel corr1 bgr2hsv s1 h1t e1t th1).health_percentage =
    (detect_health_parallel corr2 bgr2hsv s2 h2t e2t th2).health_percentage := by
  rw [detect_health_percentage_char corr1 bgr2hsv s1 h1t e1t th1 hne1 hne2 hne3,
    detect_health_percentage_char corr2 bgr2hsv s2 h2t e2t th2 hne4 hne5 hne6,
    hca_eq_regionFraction bgr2hsv s1 h1t _ hf1 hw1 hh1,
    hca_eq_regionFraction bgr2hsv s2 h2t _ hf2 hw2 hh2, hreg]

/-- Witness for C9: a 1×1 red screenshot matched at the origin versus a 2×2
screenshot matched at (1,1) with the same red pixel there; the clipped
regions coincide, and so do the fractions, despite different screenshots,
oracles and thresholds. -/
theorem C9_fraction_function_of_region_witness :
    (detect_health_parallel corrOne id s11 t11 t11 (3/10)).health_percentage =
    (detect_health_parallel corrOne11 id s22 t11 t11 (1/2)).health_percentage :=
  C9_fraction_function_of_region corrOne corrOne11 id s11 s22 t11 t11 t11 t11
    (3/10) (1/2) rfl rfl rfl rfl rfl rfl
    (by norm_num [parallel_template_match, parallel_template_match_instr,
      corrOne, s11, t11, Img.isEmpty, TM_CCOEFF_NORMED])
    (by norm_num [parallel_template_match, parallel_template_match_instr,
      corrOne11, s22, t11, Img.isEmpty, TM_CCOEFF_NORMED])
    (by decide) (by decide) (by decide) (by decide) (by decide)

/-- Collection never lengthens the task list. -/
theorem collectBatch_length_le (items : List ItemOut) :
    (collectBatch items).length ≤ items.length := by
  induction items with
  | nil => simp [collectBatch]
  | cons i rest ih =>
    cases i with
    | dict s => simpa [collectBatch] using ih
    | pyNone => simpa [collectBatch] using ih
    | null =>
      simp only [collectBatch, List.length_cons]
      exact Nat.le_trans ih (Nat.le_succ _)

/-- One task is launched per converted screenshot. -/
theorem launchItems_length (corr : Oracle) (fail alloc : Nat → Bool)
    (health_tmpl respawn_tmpl : Img) (i : Nat) (imgs : List Img) :
    (launchItems corr fail alloc health_tmpl respawn_tmpl i imgs).length =
      imgs.length := by
  induction imgs generalizing i with
  | nil => rfl
  | cons m rest ih => simp [launchItems, ih]

/-- Conversion skips entries, so it cannot lengthen the list. -/
theorem convertShots_length_le (l : List PyEntry) (imgs : List Img)
    (h : convertShots l = .ok imgs) : imgs.length ≤ l.length := by
  induction l generalizing imgs with
  | nil =>
    simp only [convertShots] at h
    cases h
    simp
  | cons e rest ih =>
    cases e with
    | other =>
      simp only [convertShots] at h
      exact Nat.le_trans (ih imgs h) (Nat.le_succ _)
    | arr a =>
      simp only [convertShots] at h
      cases hmat : pyarray_to_mat a with
      | error e2 => rw [hmat] at h; cases h
      | ok m =>
        rw [hmat] at h
        cases htail : convertShots rest with
        | error e2 => rw [htail] at h; cases h
        | ok tail =>
          rw [htail] at h
          cases h
          simpa using ih tail htail

/-- A summary in the collected output came from a dict-producing task. -/
theorem collectBatch_some_mem (items : List ItemOut) (s : Summary)
    (h : some s ∈ collectBatch items) : ItemOut.dict s ∈ items := by
  induction items with
  | nil => simp [collectBatch] at h
  | cons i rest ih =>
    cases i with
    | dict t =>
      simp only [collectBatch, List.mem_cons] at h
      rcases h with h | h
      · cases h
        exact List.mem_cons_self _ _
      · exact List.mem_cons_of_mem _ (ih h)
    | pyNone =>
      simp only [collectBatch, List.mem_cons] at h
      rcases h with h | h
      · cases h
      · exact List.mem_cons_of_mem _ (ih h)
    | null =>
      simp only [collectBatch] at h
      exact List.mem_cons_of_mem _ (ih h)

/-- Collection preserves membership under one more task. -/
theorem collectBatch_mem_cons (x : ItemOut) (t : List ItemOut)
    (o : Option Summary) (h : o ∈ collectBatch t) :
    o ∈ collectBatch (x :: t) := by
  cases x <;> simp [collectBatch, h]

/-- A dict produced by some launched task is the dual-match summary of one
of the converted screenshots. -/
theorem launchItems_dict_mem (corr : Oracle) (fail alloc : Nat → Bool)
    (health_tmpl respawn_tmpl : Img) (i : Nat) (imgs : List Img) (s : Summary)
    (h : ItemOut.dict s ∈ launchItems corr fail alloc health_tmpl respawn_tmpl
      i imgs) :
    ∃ img ∈ imgs, s = mkSummary corr img health_tmpl respawn_tmpl := by
  induction imgs generalizing i with
  | nil => simp [launchItems] at h
  | cons m rest ih =>
    simp only [launchItems, List.mem_cons] at h
    rcases h with h | h
    · unfold batch_item at h
      by_cases hf : fail i = true
      · rw [if_pos hf] at h
        cases h
      · rw [if_neg hf] at h
        by_cases ha : alloc i = true
        · rw [if_pos ha] at h
          cases h
        · rw [if_neg ha] at h
          exact ⟨m, List.mem_cons_self _ _, by injection h⟩
    · obtain ⟨img, hmem, hs⟩ := ih (i + 1) h
      exact ⟨img, List.mem_cons_of_mem _ hmem, hs⟩

/-- A failing task contributes a `none` placeholder to the collected
output. -/
theorem launchItems_fail_none_mem (corr : Oracle) (fail alloc : Nat → Bool)
    (health_tmpl respawn_tmpl : Img) (i0 : Nat) (imgs : List Img) :
    ∀ i, i < imgs.length → fail (i0 + i) = true →
      (none : Option Summary) ∈
        collectBatch (launchItems corr fail alloc health_tmpl respawn_tmpl
          i0 imgs) := by
  induction imgs generalizing i0 with
  | nil =>
    intro i hi
    exact absurd hi (by simp)
  | cons m rest ih =>
    intro i hi hfail
    cases i with
    | zero =>
      simp only [launchItems, batch_item]
      rw [if_pos (by simpa using hfail)]
      simp [collectBatch]
    | succ j =>
      have hmem := ih (i0 + 1) j (by simpa using Nat.lt_of_succ_lt_succ hi)
        (by rw [show i0 + 1 + j = i0 + (j + 1) by omega]; exact hfail)
      exact collectBatch_mem_cons _ _ _ hmem

/-! Claim C4. -/

/-- C4 (amended): on a successful batch call, the output length is at most
the input length and every dict summary in the output is the dual-match
summary of some converted input screenshot — but a per-item task failure
contributes a `None` placeholder entry to the output; the failed item is
not dropped. -/
theorem C4_failure_yields_placeholder (corr : Oracle) (fail alloc : Nat → Bool)
    (screenshot_list : List PyEntry) (health_template respawn_template : NpArr)
    (th : ℚ) (health_tmpl respawn_tmpl : Img) (imgs : List Img)
    (out : List (Option Summary))
    (hh : pyarray_to_mat health_template = .ok health_tmpl)
    (hr : pyarray_to_mat respawn_template = .ok respawn_tmpl)
    (hc : convertShots screenshot_list = .ok imgs)
    (hout : cpp_batch_process_screenshots corr fail alloc screenshot_list
      health_template respawn_template th = .ok out) :
    out.length ≤ screenshot_list.length ∧
    (∀ s : Summary, some s ∈ out →
      ∃ img ∈ imgs, s = mkSummary corr img health_tmpl respawn_tmpl) ∧
    (∀ i, i < imgs.length → fail i = true →
      (none : Option Summary) ∈ out) := by
  have hout' : out = collectBatch (launchItems corr fail alloc health_tmpl
      respawn_tmpl 0 imgs) := by
    unfold cpp_batch_process_screenshots at hout
    simp only [hh, hr, hc] at hout
    cases hout
    rfl
  subst hout'
  refine ⟨?_, ?_, ?_⟩
  · calc (collectBatch (launchItems corr fail alloc health_tmpl respawn_tmpl
        0 imgs)).length
        ≤ (launchItems corr fail alloc health_tmpl respawn_tmpl
            0 imgs).length := collectBatch_length_le _
      _ = imgs.length := launchItems_length corr fail alloc health_tmpl
            respawn_tmpl 0 imgs
      _ ≤ screenshot_list.length := convertShots_length_le _ _ hc
  · intro s hs
    exact launchItems_dict_mem corr fail alloc health_tmpl respawn_tmpl 0 imgs
      s (collectBatch_some_mem _ _ hs)
  · intro i hi hf
    exact launchItems_fail_none_mem corr fail alloc health_tmpl respawn_tmpl
      0 imgs i hi (by simpa using hf)

/-- Witness for C4: a one-element batch whose task succeeds. -/
theorem C4_failure_yields_placeholder_witness :
    (collectBatch (launchItems corrOne (fun _ => false) (fun _ => false)
      t11 t11 0 [t11])).length ≤ [PyEntry.arr arr11].length ∧
    (∀ s : Summary, some s ∈ collectBatch (launchItems corrOne
        (fun _ => false) (fun _ => false) t11 t11 0 [t11]) →
      ∃ img ∈ [t11], s = mkSummary corrOne img t11 t11) ∧
    (∀ i, i < [t11].length → (fun _ => false) i = true →
      (none : Option Summary) ∈ collectBatch (launchItems corrOne
        (fun _ => false) (fun _ => false) t11 t11 0 [t11])) :=
  C4_failure_yields_placeholder corrOne (fun _ => false) (fun _ => false)
    [PyEntry.arr arr11] arr11 arr11 (3/10) t11 t11 [t11] _ rfl rfl rfl rfl

/-- Counterexample to C4 as stated: a valid one-element batch whose task
throws yields the output `[None]` — an entry is produced for the failed
item (a placeholder), instead of the empty output the claim requires. -/
theorem C4_counterexample :
    cpp_batch_process_screenshots corrOne (fun _ => true) (fun _ => false)
      [PyEntry.arr arr11] arr11 arr11 (3/10) ≠
      Except.ok ([] : List (Option Summary)) ∧
    cpp_batch_process_screenshots corrOne (fun _ => true) (fun _ => false)
      [PyEntry.arr arr11] arr11 arr11 (3/10) =
      Except.ok [(none : Option Summary)] := by
  refine ⟨fun h => ?_, rfl⟩
  exact absurd (Except.ok.inj h) (by simp [collectBatch, launchItems, batch_item])

end AutomationCore
